import Mathlib

/-!
# Credential cache of the Classroom add-on samples

A shallow embedding of the credential-cache logic of the Flask Classroom
add-on samples, together with the iframe discovery route and the grade-sync
submission handler.

The durable store (one SQL table of `User` rows, primary key `id`) is
modelled as a `List User`; primary-key lookup (`User.query.get`) is the
first row with the given id, and the ORM's in-place mutation of a fetched
row is replacement of that first row.  Nullable text columns are
`Option String`.
-/

namespace ClassroomAddon

/-- A row of the `User` table
(`src/flask/04-context/webapp/models.py`): primary key `id`, cached
profile columns and the durable `refresh_token`.  All non-key columns are
nullable. -/
structure User where
  id : String
  display_name : Option String
  email : Option String
  portrait_url : Option String
  refresh_token : Option String
  deriving Repr, DecidableEq

/-- The fields of a `google.oauth2.credentials.Credentials` object that
`save_user_credentials` reads: `token` and `refresh_token`, each possibly
`None`. -/
structure Credentials where
  token : Option String
  refresh_token : Option String
  deriving Repr, DecidableEq

/-- The user-info dict returned by the OAuth2 `userinfo` endpoint, as read
by `save_user_credentials`: `user_info.get("id")` (assumed present, it
becomes the primary key), and the `.get`s of `name`, `email`, `picture`,
each possibly absent. -/
structure UserInfo where
  id : String
  name : Option String
  email : Option String
  picture : Option String
  deriving Repr, DecidableEq

/-- `get_credentials_from_storage(id)`
(`src/flask/03-query-parameters/webapp/routes.py`): `User.query.get(id)`,
a primary-key lookup returning the row or `None`; no exception on a
miss. -/
def getCredentialsFromStorage : List User → String → Option User
  | [], _ => none
  | u :: rest, i => if u.id == i then some u else getCredentialsFromStorage rest i

/-- Replace the first row whose `id` equals `i` by its image under `f`:
the effect of mutating the object returned by `User.query.get(i)` and
committing. -/
def updateFirst (f : User → User) (i : String) : List User → List User
  | [] => []
  | u :: rest => if u.id == i then f u :: rest else u :: updateFirst f i rest

/-- The `if user_info:` block of `save_user_credentials`: overwrite
`id`, `display_name`, `email`, `portrait_url` of the existing row from
`user_info`. -/
def applyUserInfo (userInfo : Option UserInfo) (u : User) : User :=
  match userInfo with
  | some info =>
      { u with id := info.id, display_name := info.name,
               email := info.email, portrait_url := info.picture }
  | none => u

/-- The `if credentials and credentials.refresh_token is not None:` block
of `save_user_credentials`: overwrite `refresh_token` only when the
supplied credentials carry a non-`None` refresh token. -/
def applyCredentials (credentials : Option Credentials) (u : User) : User :=
  match credentials with
  | some c =>
      match c.refresh_token with
      | some t => { u with refresh_token := some t }
      | none => u
  | none => u

/-- `save_user_credentials(credentials, user_info)`
(`src/flask/03-query-parameters/webapp/routes.py` lines 345-378): look up
the row keyed by the session's `login_hint`; if found, apply the profile
overwrite then the guarded refresh-token overwrite to that row; otherwise
insert a new row only when both `credentials` and `user_info` are
supplied.  (`CredentialHandler.save_credentials_to_storage` in
`05-activity-attachments` has the same storage effect, with the lookup
keyed by `user_info.get("id")`.) -/
def saveUserCredentials (store : List User) (loginHint : Option String)
    (credentials : Option Credentials) (userInfo : Option UserInfo) : List User :=
  match loginHint.bind (getCredentialsFromStorage store) with
  | some existing =>
      updateFirst (fun u => applyCredentials credentials (applyUserInfo userInfo u))
        existing.id store
  | none =>
      match credentials, userInfo with
      | some c, some info =>
          store ++ [{ id := info.id, display_name := info.name, email := info.email,
                      portrait_url := info.picture, refresh_token := c.refresh_token }]
      | _, _ => store

/-- The profile fields of an abstract `upsert(user_id, profile, token?)`
operation of the spec's Credential Cache. -/
structure Profile where
  name : Option String
  email : Option String
  picture : Option String
  deriving Repr, DecidableEq

/-- The spec's `upsert(u, profile, refresh_token?)`: `save_user_credentials`
invoked for user `u` (session `login_hint` and `user_info["id"]` both
equal to `u`, as in the OAuth callback of a single user) with the given
profile fields and optional refresh token. -/
def upsert (store : List User) (u : String) (p : Profile) (t : Option String) : List User :=
  saveUserCredentials store (some u)
    (some { token := none, refresh_token := t })
    (some { id := u, name := p.name, email := p.email, picture := p.picture })

/-- One abstract upsert request: a user id, profile fields and an optional
refresh token. -/
structure UpsertOp where
  user_id : String
  profile : Profile
  refresh_token : Option String
  deriving Repr, DecidableEq

/-- A sequence of upserts applied in order. -/
def upsertAll (store : List User) (ops : List UpsertOp) : List User :=
  ops.foldl (fun s op => upsert s op.user_id op.profile op.refresh_token) store

/-- The row inserted by `upsert store u p t` when no row for `u` exists. -/
def upsertRow (u : String) (p : Profile) (t : Option String) : User :=
  { id := u, display_name := p.name, email := p.email, portrait_url := p.picture,
    refresh_token := t }

/-- The in-place update `upsert store u p t` performs on an existing row:
overwrite the profile fields unconditionally and the refresh token only
when `t` is non-`None` (proved below to agree with the composition of
`applyUserInfo` and `applyCredentials` used by `saveUserCredentials`). -/
def upsertUpdate (p : Profile) (t : Option String) (u : String) (r : User) : User :=
  { id := u, display_name := p.name, email := p.email, portrait_url := p.picture,
    refresh_token := match t with | some s => some s | none => r.refresh_token }

/-- The `credentials` dict kept in the Flask session: `token` and
`refresh_token` (possibly `None`), the client configuration copied from
`client_secret.json`, and the scope list. -/
structure SessionCreds where
  token : Option String
  refresh_token : Option String
  token_uri : String
  client_id : String
  client_secret : String
  scopes : List String
  deriving Repr, DecidableEq

/-- The Flask session keys the discovery route touches.  An outer
`Option` is key presence; for `username` the inner `Option` is the stored
value, which may itself be a `None` display name. -/
structure Session where
  login_hint : Option String
  credentials : Option SessionCreds
  username : Option (Option String)
  deriving Repr, DecidableEq

/-- The `web` section of `client_secret.json` that the route copies into
the session. -/
structure ClientSecrets where
  token_uri : String
  client_id : String
  client_secret : String
  deriving Repr, DecidableEq

/-- The `SCOPES` constant of `src/flask/03-query-parameters/webapp/routes.py`. -/
def SCOPES : List String :=
  ["openid",
   "https://www.googleapis.com/auth/userinfo.profile",
   "https://www.googleapis.com/auth/userinfo.email",
   "https://www.googleapis.com/auth/classroom.courses.readonly",
   "https://www.googleapis.com/auth/classroom.addons.teacher",
   "https://www.googleapis.com/auth/classroom.addons.student"]

/-- What the `/addon-discovery` route returns: the authorization page
(`start_auth_flow` rendering `authorization.html`) or the signed-in
`addon-discovery.html` page. -/
inductive AddonResponse
  | authFlow
  | discovery
  deriving Repr, DecidableEq

/-- `classroom_addon` (`/addon-discovery`,
`src/flask/03-query-parameters/webapp/routes.py` lines 60-130).  A
present non-empty `login_hint` query parameter is cached in the session
(Python truthiness: an empty-string parameter is skipped); a `None`
session hint sends the user to the auth flow; a stored row loads its
`refresh_token` into the session credentials, keeping the session's
existing access `token` (`... .get("token") or None` maps an empty token
to `None`); finally the route starts the auth flow unless the session
credentials exist with a non-`None` `refresh_token`. -/
def classroomAddon (cfg : ClientSecrets) (store : List User) (session : Session)
    (loginHintParam : Option String) : Session × AddonResponse :=
  let s1 : Session :=
    match loginHintParam with
    | some h => if h = "" then session else { session with login_hint := some h }
    | none => session
  match s1.login_hint with
  | none => (s1, .authFlow)
  | some hint =>
    let s2 : Session :=
      match getCredentialsFromStorage store hint with
      | some stored =>
          let prevToken : Option String :=
            match s1.credentials with
            | some c => match c.token with
                        | some t => if t = "" then none else some t
                        | none => none
            | none => none
          { s1 with
            credentials := some { token := prevToken,
                                  refresh_token := stored.refresh_token,
                                  token_uri := cfg.token_uri,
                                  client_id := cfg.client_id,
                                  client_secret := cfg.client_secret,
                                  scopes := SCOPES },
            username := some stored.display_name,
            login_hint := some stored.id }
      | none => s1
    match s2.credentials with
    | none => (s2, .authFlow)
    | some c =>
        match c.refresh_token with
        | none => (s2, .authFlow)
        | some _ => (s2, .discovery)

/-- `clear_credentials_in_session`
(`src/flask/03-query-parameters/webapp/routes.py` and
`CredentialHandler.clear_credentials_in_session` in
`05-activity-attachments`): when the session holds a `credentials` key,
delete it together with `username`; nothing else is touched, and no
database statement is issued. -/
def clearCredentialsInSession (session : Session) : Session :=
  match session.credentials with
  | some _ => { session with credentials := none, username := none }
  | none => session

/-- The state a request handler can reach: the durable store plus the
session. -/
structure AppState where
  store : List User
  session : Session
  deriving Repr, DecidableEq

/-- The `/clear` route (`clear_credentials`): clear the session
credentials and render `signed-out.html`. -/
def clearCredentials (st : AppState) : AppState × String :=
  ({ st with session := clearCredentialsInSession st.session }, "signed-out.html")

/-- A row of the `Attachment` table
(`src/flask/06-grade-sync/webapp/models.py`).  Rows are only created by
`attachment-options` with every field populated (`max_points =
int(resp.get("maxPoints"))`), so the populated values are modelled
directly. -/
structure Attachment where
  attachment_id : String
  image_filename : String
  image_caption : String
  max_points : Int
  teacher_id : String
  deriving Repr, DecidableEq

/-- A row of the `Submission` table
(`src/flask/06-grade-sync/webapp/models.py`): composite primary key
`(submission_id, attachment_id)` and the student's response text. -/
structure Submission where
  submission_id : String
  attachment_id : String
  student_response : String
  deriving Repr, DecidableEq

/-- `Attachment.query.get(attachment_id)`. -/
def Attachment.lookup (atts : List Attachment) (i : String) : Option Attachment :=
  atts.find? (fun a => a.attachment_id == i)

/-- `Submission.query.get((submission_id, attachment_id))`. -/
def Submission.lookup (subs : List Submission) (k : String × String) : Option Submission :=
  subs.find? (fun s => s.submission_id == k.1 && s.attachment_id == k.2)

/-- The grade-passback computation shared by `load_activity_attachment`
(lines 384-388) and `view_submission` (lines 525-532) of
`src/flask/06-grade-sync/webapp/attachment_routes.py`: `grade = 0`, then
`grade = attachment.max_points` when the student response matches the
image caption case-insensitively (`str.lower`). -/
def computeGrade (studentResponse imageCaption : String) (maxPoints : Int) : Int :=
  if studentResponse.toLower = imageCaption.toLower then maxPoints else 0

/-- The `pointsEarned` value PATCHed by `load_activity_attachment` when a
student submits the activity form (the
`SET_GRADE_WITH_LOGGED_IN_USER_CREDENTIALS = False` moment). -/
def submitActivityPointsEarned (formStudentResponse : String) (attachment : Attachment) : Int :=
  computeGrade formStudentResponse attachment.image_caption attachment.max_points

/-- A Python runtime error surfaced by a handler. -/
inductive PyError
  | attributeError
  | keyError
  deriving Repr, DecidableEq

/-- `CredentialHandler.get_credentials_from_storage(id)`
(`src/flask/05-activity-attachments/webapp/credential_handler.py` lines
109-146): look up the stored row and, when found, load its refresh token
into the session `credentials` dict — keeping the session's existing
access token, with `... .get("token") or None` collapsing an empty token
to `None` — and set the session `username`; the row is returned.  On a
miss the session is untouched and `None` is returned. -/
def CredentialHandler.getCredentialsFromStorage (cfg : ClientSecrets) (store : List User)
    (session : Session) (id : String) : Session × Option User :=
  match ClassroomAddon.getCredentialsFromStorage store id with
  | some stored =>
      let prevToken : Option String :=
        match session.credentials with
        | some c => match c.token with
                    | some t => if t = "" then none else some t
                    | none => none
        | none => none
      ({ session with
          credentials := some { token := prevToken,
                                refresh_token := stored.refresh_token,
                                token_uri := cfg.token_uri,
                                client_id := cfg.client_id,
                                client_secret := cfg.client_secret,
                                scopes := SCOPES },
          username := some stored.display_name }, some stored)
  | none => (session, none)

/-- `CredentialHandler.get_credentials(user_id=None)`
(`src/flask/05-activity-attachments/webapp/credential_handler.py` lines
63-92).  With a `user_id` the stored credentials are loaded into the
session and control falls through — with no further guard — to
`google.oauth2.credentials.Credentials(**flask.session["credentials"])`,
which raises `KeyError` when the session holds no `credentials` key
(that is, on a storage miss with no prior session credentials).  Without
a `user_id` the function returns `None` when the session credentials are
absent or hold a `None` refresh token, and otherwise constructs the
credentials from the session dict. -/
def CredentialHandler.getCredentials (cfg : ClientSecrets) (store : List User)
    (session : Session) (userId : Option String) :
    Except PyError (Session × Option SessionCreds) :=
  match userId with
  | some uid =>
      let s1 := (CredentialHandler.getCredentialsFromStorage cfg store session uid).1
      match s1.credentials with
      | none => .error .keyError
      | some c => .ok (s1, some c)
  | none =>
      match session.credentials with
      | none => .ok (session, none)
      | some c =>
          match c.refresh_token with
          | none => .ok (session, none)
          | some _ => .ok (session, some c)

/-- The page rendered by `/view-submission`: either the
`acknowledge-submission.html` "not yet submitted" message, or
`show-student-submission.html` with the student's response, the correct
answer and the list of `pointsEarned` values PATCHed to the Classroom
API. -/
inductive SubmissionPage
  | acknowledgeNotSubmitted (correctAnswer : String)
  | showStudentSubmission (studentResponse : String) (correctAnswer : String)
      (pointsEarnedPatches : List Int)
  deriving Repr, DecidableEq

/-- `view_submission` (`src/flask/06-grade-sync/webapp/attachment_routes.py`
lines 486-575).  The handler fetches the `Submission` row for the session's
`(submissionId, attachmentId)`, immediately reads
`student_submission.attachment_id` to fetch the `Attachment` row (an
`AttributeError` on `None` when the submission is absent), only then
tests `if student_submission is None`, and, when
`SET_GRADE_WITH_LOGGED_IN_USER_CREDENTIALS` is true, PATCHes
`pointsEarned` computed by the shared grade rule before rendering the
submission.  The attachment row is dereferenced on every remaining path
(grade rule, message f-string, final render). -/
def viewSubmission (setGradeWithLoggedInUser : Bool) (subs : List Submission)
    (atts : List Attachment) (submissionId attachmentId : String) :
    Except PyError SubmissionPage :=
  match Submission.lookup subs (submissionId, attachmentId) with
  | none => .error .attributeError
  | some student_submission =>
    match Attachment.lookup atts student_submission.attachment_id with
    | none => .error .attributeError
    | some attachment =>
      if (some student_submission : Option Submission) = none then
        .ok (.acknowledgeNotSubmitted attachment.image_caption)
      else
        let patches : List Int :=
          if setGradeWithLoggedInUser then
            [computeGrade student_submission.student_response
              attachment.image_caption attachment.max_points]
          else []
        .ok (.showStudentSubmission student_submission.student_response
          attachment.image_caption patches)

/-! ## Basic lemmas about the store -/

theorem getCredentialsFromStorage_some_id {store : List User} {u : String} {w : User}
    (h : getCredentialsFromStorage store u = some w) : w.id = u := by
  induction store with
  | nil => exact Option.noConfusion h
  | cons a rest ih =>
    rw [getCredentialsFromStorage] at h
    split at h
    · next hbeq =>
      cases h
      exact eq_of_beq hbeq
    · exact ih h

theorem getCredentialsFromStorage_eq_none {store : List User} {u : String} :
    getCredentialsFromStorage store u = none ↔ ∀ w ∈ store, w.id ≠ u := by
  induction store with
  | nil => simp [getCredentialsFromStorage]
  | cons a rest ih =>
    rw [getCredentialsFromStorage]
    by_cases ha : a.id = u
    · simp [ha]
    · simp [ha, ih]

theorem getCredentialsFromStorage_append {store l : List User} {u : String}
    (h : getCredentialsFromStorage store u = none) :
    getCredentialsFromStorage (store ++ l) u = getCredentialsFromStorage l u := by
  induction store with
  | nil => rfl
  | cons a rest ih =>
    rw [getCredentialsFromStorage] at h
    rw [List.cons_append, getCredentialsFromStorage]
    split at h
    · exact Option.noConfusion h
    · next hbeq =>
      rw [if_neg hbeq]
      exact ih h

theorem updateFirst_append_of_none {store l : List User} {u : String} {f : User → User}
    (h : getCredentialsFromStorage store u = none) :
    updateFirst f u (store ++ l) = store ++ updateFirst f u l := by
  induction store with
  | nil => rfl
  | cons a rest ih =>
    rw [getCredentialsFromStorage] at h
    split at h
    · exact Option.noConfusion h
    · next hbeq =>
      rw [List.cons_append, updateFirst, if_neg hbeq, ih h, List.cons_append]

theorem getCredentialsFromStorage_updateFirst_some {store : List User} {u : String}
    {w : User} {f : User → User} (hf : ∀ r, (f r).id = u)
    (h : getCredentialsFromStorage store u = some w) :
    getCredentialsFromStorage (updateFirst f u store) u = some (f w) := by
  induction store with
  | nil => exact Option.noConfusion h
  | cons a rest ih =>
    rw [getCredentialsFromStorage] at h
    by_cases hbeq : (a.id == u) = true
    · rw [if_pos hbeq] at h
      cases h
      rw [updateFirst, if_pos hbeq, getCredentialsFromStorage, if_pos (by simp [hf])]
    · rw [if_neg hbeq] at h
      rw [updateFirst, if_neg hbeq, getCredentialsFromStorage, if_neg hbeq]
      exact ih h

theorem updateFirst_updateFirst {store : List User} {u : String} {f : User → User}
    (hfid : ∀ r, (f r).id = u) (hff : ∀ r, f (f r) = f r) :
    updateFirst f u (updateFirst f u store) = updateFirst f u store := by
  induction store with
  | nil => rfl
  | cons a rest ih =>
    by_cases hbeq : (a.id == u) = true
    · rw [updateFirst, if_pos hbeq, updateFirst, if_pos (by simp [hfid]), hff]
    · rw [updateFirst, if_neg hbeq, updateFirst, if_neg hbeq, ih]

theorem map_id_updateFirst {store : List User} {u : String} {f : User → User}
    (hfid : ∀ r, (f r).id = u) :
    (updateFirst f u store).map User.id = store.map User.id := by
  induction store with
  | nil => rfl
  | cons a rest ih =>
    by_cases hbeq : (a.id == u) = true
    · rw [updateFirst, if_pos hbeq]
      simp [hfid, eq_of_beq hbeq]
    · rw [updateFirst, if_neg hbeq]
      simp [ih]

theorem mem_updateFirst {store : List User} {u : String} {f : User → User} {x : User}
    (h : x ∈ updateFirst f u store) : x ∈ store ∨ ∃ r ∈ store, x = f r := by
  induction store with
  | nil => exact absurd h (by simp [updateFirst])
  | cons a rest ih =>
    by_cases hbeq : (a.id == u) = true
    · rw [updateFirst, if_pos hbeq] at h
      rcases List.mem_cons.mp h with h1 | h2
      · exact Or.inr ⟨a, List.mem_cons_self a rest, h1⟩
      · exact Or.inl (List.mem_cons_of_mem a h2)
    · rw [updateFirst, if_neg hbeq] at h
      rcases List.mem_cons.mp h with h1 | h2
      · exact Or.inl (h1 ▸ List.mem_cons_self a rest)
      · rcases ih h2 with h3 | ⟨r, hr, hxr⟩
        · exact Or.inl (List.mem_cons_of_mem a h3)
        · exact Or.inr ⟨r, List.mem_cons_of_mem a hr, hxr⟩

/-! ## The two shapes of an upsert -/

theorem applyBoth_eq_upsertUpdate (p : Profile) (t : Option String) (u : String) (r : User) :
    applyCredentials (some { token := none, refresh_token := t })
      (applyUserInfo (some { id := u, name := p.name, email := p.email, picture := p.picture }) r)
      = upsertUpdate p t u r := by
  cases t <;> rfl

theorem upsert_eq_update {store : List User} {u : String} {w : User}
    (p : Profile) (t : Option String)
    (h : getCredentialsFromStorage store u = some w) :
    upsert store u p t = updateFirst (upsertUpdate p t u) u store := by
  have hw : w.id = u := getCredentialsFromStorage_some_id h
  have hfun : (fun r => applyCredentials (some { token := none, refresh_token := t })
      (applyUserInfo (some { id := u, name := p.name, email := p.email, picture := p.picture }) r))
      = upsertUpdate p t u := funext fun r => applyBoth_eq_upsertUpdate p t u r
  unfold upsert saveUserCredentials
  rw [Option.some_bind, h]
  rw [show (match some w with
      | some existing =>
          updateFirst (fun r => applyCredentials (some { token := none, refresh_token := t })
            (applyUserInfo (some { id := u, name := p.name, email := p.email, picture := p.picture }) r))
            existing.id store
      | none =>
          match (some { token := none, refresh_token := t } : Option Credentials),
              (some { id := u, name := p.name, email := p.email, picture := p.picture } : Option UserInfo) with
          | some c, some info =>
              store ++ [{ id := info.id, display_name := info.name, email := info.email,
                          portrait_url := info.picture, refresh_token := c.refresh_token }]
          | _, _ => store) =
      updateFirst (fun r => applyCredentials (some { token := none, refresh_token := t })
        (applyUserInfo (some { id := u, name := p.name, email := p.email, picture := p.picture }) r))
        w.id store from rfl]
  rw [hw, hfun]

theorem upsert_eq_insert {store : List User} {u : String}
    (p : Profile) (t : Option String)
    (h : getCredentialsFromStorage store u = none) :
    upsert store u p t = store ++ [upsertRow u p t] := by
  unfold upsert saveUserCredentials
  rw [Option.some_bind, h]
  rfl

theorem upsertUpdate_id (p : Profile) (t : Option String) (u : String) (r : User) :
    (upsertUpdate p t u r).id = u := rfl

theorem upsertRow_id (u : String) (p : Profile) (t : Option String) :
    (upsertRow u p t).id = u := rfl

theorem getCredentialsFromStorage_upsert_some {store : List User} {u : String} {w : User}
    (p : Profile) (t : Option String)
    (h : getCredentialsFromStorage store u = some w) :
    getCredentialsFromStorage (upsert store u p t) u = some (upsertUpdate p t u w) := by
  rw [upsert_eq_update p t h]
  exact getCredentialsFromStorage_updateFirst_some (fun r => rfl) h

theorem getCredentialsFromStorage_upsert_none {store : List User} {u : String}
    (p : Profile) (t : Option String)
    (h : getCredentialsFromStorage store u = none) :
    getCredentialsFromStorage (upsert store u p t) u = some (upsertRow u p t) := by
  rw [upsert_eq_insert p t h, getCredentialsFromStorage_append h]
  simp [getCredentialsFromStorage, upsertRow]

theorem getCredentialsFromStorage_upsert_ne {store : List User} {u v : String}
    (p : Profile) (t : Option String)
    (hu : getCredentialsFromStorage store u = none) (hne : v ≠ u) :
    getCredentialsFromStorage (upsert store v p t) u = none := by
  cases hv : getCredentialsFromStorage store v with
  | some w =>
    rw [upsert_eq_update p t hv, getCredentialsFromStorage_eq_none]
    intro x hx
    rcases mem_updateFirst hx with h1 | ⟨r, hr, hxr⟩
    · exact getCredentialsFromStorage_eq_none.mp hu x h1
    · rw [hxr, upsertUpdate_id]
      exact hne
  | none =>
    rw [upsert_eq_insert p t hv, getCredentialsFromStorage_append hu,
      getCredentialsFromStorage, if_neg (by simpa [upsertRow] using hne)]
    rfl

theorem getCredentialsFromStorage_upsertAll_none {u : String} (ops : List UpsertOp) :
    ∀ store, getCredentialsFromStorage store u = none →
      (∀ op ∈ ops, op.user_id ≠ u) →
      getCredentialsFromStorage (upsertAll store ops) u = none := by
  induction ops with
  | nil =>
    intro store h _
    exact h
  | cons op ops ih =>
    intro store h hops
    have h2 := getCredentialsFromStorage_upsert_ne op.profile op.refresh_token h
      (hops op (List.mem_cons_self op ops))
    have h3 := ih (upsert store op.user_id op.profile op.refresh_token) h2
      (fun o ho => hops o (List.mem_cons_of_mem op ho))
    simpa [upsertAll, List.foldl_cons] using h3

/-! ## The claims -/

/-- **C1 counterexample**: the claim says an upsert supplying an *empty*
refresh token leaves a stored non-empty token unchanged.  It does not:
the guard in `save_user_credentials` is `refresh_token is not None`, so
an empty-string token overwrites the stored `"tok"` with `""`. -/
theorem upsert_empty_token_overwrites :
    (getCredentialsFromStorage
        (upsert [{ id := "u", display_name := some "Alice", email := some "a@example.com",
                   portrait_url := some "pic", refresh_token := some "tok" }]
          "u" { name := some "Alice", email := some "a@example.com", picture := some "pic" }
          (some "")) "u").map User.refresh_token = some (some "") ∧
      (some "" : Option String) ≠ some "tok" := by
  exact ⟨by decide, by decide⟩

/-- **C1 (amended)**: for a stored row with a non-empty refresh token, an
upsert whose supplied refresh token is *absent* (`None`) leaves the
stored token unchanged, while any non-`None` supplied value — including
the empty string — overwrites it. -/
theorem refresh_token_no_downgrade_on_absent (store : List User) (u : String) (p : Profile)
    (w : User) (rt : String)
    (h : getCredentialsFromStorage store u = some w)
    (hw : w.refresh_token = some rt) (hrt : rt ≠ "") :
    (getCredentialsFromStorage (upsert store u p none) u).map User.refresh_token
        = some (some rt) ∧
    ∀ s, (getCredentialsFromStorage (upsert store u p (some s)) u).map User.refresh_token
        = some (some s) := by
  constructor
  · rw [getCredentialsFromStorage_upsert_some p none h]
    simp [upsertUpdate, hw]
  · intro s
    rw [getCredentialsFromStorage_upsert_some p (some s) h]
    simp [upsertUpdate]

theorem refresh_token_no_downgrade_on_absent_witness :
    (getCredentialsFromStorage
        (upsert [{ id := "w", display_name := some "N", email := some "E",
                   portrait_url := some "P", refresh_token := some "tk" }]
          "w" { name := some "N", email := some "E", picture := some "P" } none)
        "w").map User.refresh_token = some (some "tk") :=
  (refresh_token_no_downgrade_on_absent
    [{ id := "w", display_name := some "N", email := some "E",
       portrait_url := some "P", refresh_token := some "tk" }]
    "w" { name := some "N", email := some "E", picture := some "P" }
    { id := "w", display_name := some "N", email := some "E",
      portrait_url := some "P", refresh_token := some "tk" }
    "tk" (by decide) (by decide) (by decide)).1

/-- The bare storage lookup behind the cache: after any sequence of
upserts from the empty store, none of which targets `u`,
`User.query.get(u)` returns `none` without an error. -/
theorem get_never_upserted_absent (ops : List UpsertOp) (u : String)
    (h : ∀ op ∈ ops, op.user_id ≠ u) :
    getCredentialsFromStorage (upsertAll [] ops) u = none :=
  getCredentialsFromStorage_upsertAll_none ops [] rfl h

theorem get_never_upserted_absent_witness :
    getCredentialsFromStorage
        (upsertAll [] [{ user_id := "v",
                         profile := { name := none, email := none, picture := none },
                         refresh_token := some "t" }]) "u" = none :=
  get_never_upserted_absent
    [{ user_id := "v", profile := { name := none, email := none, picture := none },
       refresh_token := some "t" }] "u" (by decide)

/-- **C2** (code bug): the claim — and `get_credentials`' own docstring,
"or None if credentials could not be constructed" — says a get for a
never-upserted `user_id` yields absence, not an error.  But when the
caller supplies the `user_id` and no session credentials exist, a
storage miss leaves the session without a `credentials` key and
`CredentialHandler.get_credentials` falls through to
`Credentials(**flask.session["credentials"])`, raising `KeyError`
instead of returning absent. -/
theorem get_credentials_storage_miss_keyerror (cfg : ClientSecrets) (store : List User)
    (session : Session) (u : String)
    (hmiss : getCredentialsFromStorage store u = none)
    (hsess : session.credentials = none) :
    CredentialHandler.getCredentials cfg store session (some u) = .error .keyError := by
  unfold CredentialHandler.getCredentials CredentialHandler.getCredentialsFromStorage
  simp [hmiss, hsess]

theorem get_credentials_storage_miss_keyerror_witness :
    CredentialHandler.getCredentials
        { token_uri := "T", client_id := "I", client_secret := "S" } []
        { login_hint := none, credentials := none, username := none } (some "u")
      = .error .keyError :=
  get_credentials_storage_miss_keyerror
    { token_uri := "T", client_id := "I", client_secret := "S" } []
    { login_hint := none, credentials := none, username := none } "u" rfl rfl

/-- **C3**: after `upsert(u, p, some s)` with a non-empty token `s`,
`get(u)` returns a record whose refresh token is `s` and whose
`display_name`, `email` and `portrait_url` are exactly the profile
fields of `p`. -/
theorem upsert_then_get (store : List User) (u : String) (p : Profile) (s : String)
    (hs : s ≠ "") :
    getCredentialsFromStorage (upsert store u p (some s)) u =
      some { id := u, display_name := p.name, email := p.email,
             portrait_url := p.picture, refresh_token := some s } := by
  cases h : getCredentialsFromStorage store u with
  | some w =>
    rw [getCredentialsFromStorage_upsert_some p (some s) h]
    rfl
  | none =>
    rw [getCredentialsFromStorage_upsert_none p (some s) h]
    rfl

theorem upsert_then_get_witness :
    getCredentialsFromStorage
        (upsert [] "u" { name := some "N", email := some "E", picture := some "P" }
          (some "tk")) "u" =
      some { id := "u", display_name := some "N", email := some "E",
             portrait_url := some "P", refresh_token := some "tk" } :=
  upsert_then_get [] "u" { name := some "N", email := some "E", picture := some "P" }
    "tk" (by decide)

/-- **C4**: `upsert` is idempotent — repeating the same upsert leaves the
store exactly as after the first application, for every starting store,
user id, profile and optional token. -/
theorem upsert_idempotent (store : List User) (u : String) (p : Profile) (t : Option String) :
    upsert (upsert store u p t) u p t = upsert store u p t := by
  cases h : getCredentialsFromStorage store u with
  | some w =>
    have hA : getCredentialsFromStorage (upsert store u p t) u = some (upsertUpdate p t u w) :=
      getCredentialsFromStorage_upsert_some p t h
    rw [upsert_eq_update p t hA, upsert_eq_update p t h]
    exact updateFirst_updateFirst (fun r => rfl) (fun r => by cases t <;> rfl)
  | none =>
    have hA : getCredentialsFromStorage (upsert store u p t) u = some (upsertRow u p t) :=
      getCredentialsFromStorage_upsert_none p t h
    rw [upsert_eq_update p t hA, upsert_eq_insert p t h, updateFirst_append_of_none h]
    have hone : updateFirst (upsertUpdate p t u) u [upsertRow u p t] = [upsertRow u p t] := by
      rw [updateFirst, if_pos (by simp [upsertRow])]
      cases t <;> rfl
    rw [hone]

/-- **C5**: starting from a store with pairwise distinct `user_id`s, an
upsert preserves that uniqueness; when a row for `u` exists the write
changes no row id (it updates the one existing row in place, producing
no duplicate and no failure), and when none exists it appends exactly
one new row keyed `u`. -/
theorem upsert_unique_row_invariant (store : List User) (u : String) (p : Profile)
    (t : Option String) (hnd : (store.map User.id).Nodup) :
    ((upsert store u p t).map User.id).Nodup ∧
    (∀ w, getCredentialsFromStorage store u = some w →
        (upsert store u p t).map User.id = store.map User.id) ∧
    (getCredentialsFromStorage store u = none →
        (upsert store u p t).map User.id = store.map User.id ++ [u]) := by
  refine ⟨?_, ?_, ?_⟩
  · cases h : getCredentialsFromStorage store u with
    | some w =>
      rw [upsert_eq_update p t h, @map_id_updateFirst store u (upsertUpdate p t u) (fun r => rfl)]
      exact hnd
    | none =>
      rw [upsert_eq_insert p t h, List.map_append, List.nodup_append]
      refine ⟨hnd, by simp, ?_⟩
      intro x hx hy
      have hxu : x = u := by simpa [upsertRow] using hy
      subst hxu
      rcases List.mem_map.mp hx with ⟨w, hw, hwid⟩
      exact getCredentialsFromStorage_eq_none.mp h w hw hwid
  · intro w hw
    rw [upsert_eq_update p t hw, @map_id_updateFirst store u (upsertUpdate p t u) (fun r => rfl)]
  · intro h
    rw [upsert_eq_insert p t h, List.map_append]
    rfl

theorem upsert_unique_row_invariant_witness :
    ((upsert [] "u" { name := none, email := none, picture := none }
        (some "t")).map User.id).Nodup :=
  (upsert_unique_row_invariant [] "u" { name := none, email := none, picture := none }
    (some "t") (by simp)).1

/-- **C6**: when no row exists for the user, an upsert that supplies
credentials but no profile (`user_info` absent) inserts nothing: the
store is left exactly unchanged. -/
theorem bare_token_no_insert (store : List User) (u : String) (c : Credentials)
    (h : getCredentialsFromStorage store u = none) :
    saveUserCredentials store (some u) (some c) none = store := by
  unfold saveUserCredentials
  rw [Option.some_bind, h]

theorem bare_token_no_insert_witness :
    saveUserCredentials [] (some "u") (some { token := none, refresh_token := some "tk" })
      none = [] :=
  bare_token_no_insert [] "u" { token := none, refresh_token := some "tk" } rfl

/-- **C7**: a request to `/addon-discovery` carrying a `login_hint` that
matches a stored row with a non-`None` refresh token renders the
signed-in discovery page and never the authorization-start response,
whatever the session held before — in particular no access token is
required. -/
theorem addon_discovery_signed_in (cfg : ClientSecrets) (store : List User)
    (session : Session) (h : String) (stored : User) (rt : String)
    (hne : h ≠ "") (hs : getCredentialsFromStorage store h = some stored)
    (hrt : stored.refresh_token = some rt) :
    (classroomAddon cfg store session (some h)).2 = AddonResponse.discovery := by
  simp [classroomAddon, hne, hs, hrt]

theorem addon_discovery_signed_in_witness :
    (classroomAddon { token_uri := "T", client_id := "I", client_secret := "S" }
        [{ id := "u", display_name := some "N", email := some "E",
           portrait_url := some "P", refresh_token := some "tk" }]
        { login_hint := none, credentials := none, username := none }
        (some "u")).2 = AddonResponse.discovery :=
  addon_discovery_signed_in { token_uri := "T", client_id := "I", client_secret := "S" }
    [{ id := "u", display_name := some "N", email := some "E",
       portrait_url := some "P", refresh_token := some "tk" }]
    { login_hint := none, credentials := none, username := none }
    "u"
    { id := "u", display_name := some "N", email := some "E",
      portrait_url := some "P", refresh_token := some "tk" }
    "tk" (by decide) (by decide) (by decide)

/-- **C8**: the `/clear` route only clears session state; the durable
credential store — every `User` row, refresh tokens included — is
untouched, for every application state. -/
theorem clear_preserves_durable_storage (st : AppState) :
    (clearCredentials st).1.store = st.store := rfl

/-- **C9**: in `view_submission`, a request whose
`(submissionId, attachmentId)` has no stored `Submission` row fails with
an `AttributeError` (the absent row's `attachment_id` is read before the
`None` check), and consequently the "not yet submitted" acknowledgement
page is unreachable on every input. -/
theorem view_submission_missing_row_unreachable_branch (b : Bool)
    (subs : List Submission) (atts : List Attachment) (sid aid : String) :
    (Submission.lookup subs (sid, aid) = none →
        viewSubmission b subs atts sid aid = .error .attributeError) ∧
    ∀ ca, viewSubmission b subs atts sid aid ≠ .ok (.acknowledgeNotSubmitted ca) := by
  constructor
  · intro h
    unfold viewSubmission
    rw [h]
  · intro ca
    unfold viewSubmission
    split
    · simp
    · split
      · simp
      · split
        · next hc => simp at hc
        · simp

theorem view_submission_missing_row_witness :
    viewSubmission true [] [] "s" "a" = .error .attributeError :=
  (view_submission_missing_row_unreachable_branch true [] [] "s" "a").1 rfl

/-- **C10**: the `pointsEarned` value sent in grade passback is all or
nothing: in `view_submission` (grading on Student Work Review) the single
PATCHed value, and in `load_activity_attachment` (grading on student
submit) the PATCHed value, equals the attachment's `max_points` exactly
when the response matches the image caption case-insensitively, and `0`
otherwise — never an intermediate score. -/
theorem grade_passback_all_or_nothing (subs : List Submission) (atts : List Attachment)
    (sid aid : String) (sub : Submission) (att : Attachment) (r : String)
    (hsub : Submission.lookup subs (sid, aid) = some sub)
    (hatt : Attachment.lookup atts sub.attachment_id = some att) :
    (viewSubmission true subs atts sid aid =
        .ok (.showStudentSubmission sub.student_response att.image_caption
          [computeGrade sub.student_response att.image_caption att.max_points]) ∧
      (computeGrade sub.student_response att.image_caption att.max_points = att.max_points ∧
          sub.student_response.toLower = att.image_caption.toLower ∨
        computeGrade sub.student_response att.image_caption att.max_points = 0 ∧
          sub.student_response.toLower ≠ att.image_caption.toLower)) ∧
    (submitActivityPointsEarned r att = att.max_points ∧
        r.toLower = att.image_caption.toLower ∨
      submitActivityPointsEarned r att = 0 ∧ r.toLower ≠ att.image_caption.toLower) := by
  refine ⟨⟨?_, ?_⟩, ?_⟩
  · unfold viewSubmission
    simp only [hsub]
    simp only [hatt]
    simp
  · by_cases hm : sub.student_response.toLower = att.image_caption.toLower
    · exact Or.inl ⟨by simp [computeGrade, hm], hm⟩
    · exact Or.inr ⟨by simp [computeGrade, hm], hm⟩
  · by_cases hm : r.toLower = att.image_caption.toLower
    · exact Or.inl ⟨by simp [submitActivityPointsEarned, computeGrade, hm], hm⟩
    · exact Or.inr ⟨by simp [submitActivityPointsEarned, computeGrade, hm], hm⟩

theorem grade_passback_all_or_nothing_witness :
    viewSubmission true
        [{ submission_id := "s", attachment_id := "a", student_response := "Eiffel Tower" }]
        [{ attachment_id := "a", image_filename := "eiffel-tower.jpg",
           image_caption := "Eiffel Tower", max_points := 50, teacher_id := "t" }]
        "s" "a" =
      .ok (.showStudentSubmission "Eiffel Tower" "Eiffel Tower" [50]) := by
  have h := grade_passback_all_or_nothing
      [{ submission_id := "s", attachment_id := "a", student_response := "Eiffel Tower" }]
      [{ attachment_id := "a", image_filename := "eiffel-tower.jpg",
         image_caption := "Eiffel Tower", max_points := 50, teacher_id := "t" }]
      "s" "a"
      { submission_id := "s", attachment_id := "a", student_response := "Eiffel Tower" }
      { attachment_id := "a", image_filename := "eiffel-tower.jpg",
        image_caption := "Eiffel Tower", max_points := 50, teacher_id := "t" }
      "x" (by decide) (by decide)
  simpa [computeGrade] using h.1.1

end ClassroomAddon
